import Mathlib

/-!
Shallow embedding of `src/ndiaudiosrc.rs` from the gst-plugin-ndi repository.

The element `NdiAudioSrc` holds three mutexed fields (`settings`, `state`,
`timestamp_data`); its base-class callbacks (`start`, `stop`, `create`,
`fixate`, `query`, `change_state`, `set_property`, `get_property`) are
embedded as pure functions that take the current contents of those fields
(plus the shared receiver registry and the externally captured NDI frame)
and return the updated contents together with their result.

External collaborators are modelled as inputs: `connect_ndi` / `stop_ndi`
live in a different source file, so `start` takes the id returned by
`connect_ndi` as an argument and `stop` reports the id it passes to
`stop_ndi`; the NDI SDK's `NDIlib_framesync_capture_audio` fills a frame
chosen by the network, so each capturing operation takes the captured
`AudioFrame` as an argument.  Calls to `NDIlib_framesync_capture_audio`
and `NDIlib_framesync_free_audio` are recorded in an event trace.
`.unwrap()` on a registry lookup that can actually fail is modelled by an
`Option` result (`none` = panic); infallible unwraps (buffer allocation,
mapping) are modelled as succeeding.
-/

namespace GstNdi

/-- `struct Settings` of `ndiaudiosrc.rs` (stream_name, ip, loss_threshold: u32,
id_receiver: i8, latency: Option<gst::ClockTime> in nanoseconds). -/
structure Settings where
  stream_name : String
  ip : String
  loss_threshold : Nat
  id_receiver : Int
  latency : Option Nat
  deriving Repr, DecidableEq

/-- `impl Default for Settings`. -/
def Settings.default : Settings :=
  { stream_name := "Fixed ndi stream name"
    ip := ""
    loss_threshold := 5
    id_receiver := 0
    latency := none }

/-- The fields of `gst_audio::AudioInfo` the element reads (none are read
beyond presence, but rate/channels identify the negotiated format). -/
structure AudioInfo where
  rate : Nat
  channels : Nat
  deriving Repr, DecidableEq

/-- `struct State { info: Option<gst_audio::AudioInfo> }`. -/
structure State where
  info : Option AudioInfo
  deriving Repr, DecidableEq

/-- `impl Default for State`: `State { info: None }`. -/
def State.default : State := { info := none }

/-- `struct TimestampData { offset: u64 }`. -/
structure TimestampData where
  offset : Nat
  deriving Repr, DecidableEq

/-- The per-element fields allocated in `ObjectSubclass::new` (the debug
category is omitted: it only labels log output). -/
structure NdiAudioSrcData where
  settings : Settings
  state : State
  timestamp_data : TimestampData
  deriving Repr, DecidableEq

/-- `fn new()` : default settings, default state, `TimestampData { offset: 0 }`. -/
def NdiAudioSrcData.new : NdiAudioSrcData :=
  { settings := Settings.default
    state := State.default
    timestamp_data := { offset := 0 } }

/-- A receiver registry entry, as used by this element: its
`initial_timestamp` baseline (u64, 100 ns ticks, 0 = unset).  The opaque
`ndi_instance`/frame-sync handles carry no data the embedded code reads. -/
structure Receiver where
  initial_timestamp : Nat
  deriving Repr, DecidableEq

/-- The shared `hashmap_receivers` registry, keyed by the i8 receiver id. -/
def Receivers : Type := Int → Option Receiver

/-- The NDI audio frame as filled by `NDIlib_framesync_capture_audio`; the
element reads only its vendor `timestamp` (i64, 100 ns ticks). -/
structure AudioFrame where
  timestamp : Int
  deriving Repr, DecidableEq

/-- Rust `as` cast from `i64` to `u64`: reduction modulo 2^64. -/
def i64_as_u64 (t : Int) : Nat := (t % (2 ^ 64 : Int)).toNat

/-- Vendor SDK frame calls recorded by the embedding. -/
inductive Event where
  | capture
  | free
  deriving Repr, DecidableEq

/-- `gst::FlowError` values this element returns. -/
inductive FlowError where
  | NotNegotiated
  deriving Repr, DecidableEq

/-- `gst::CoreError` values posted via `gst_element_error!`. -/
inductive CoreError where
  | Negotiation
  deriving Repr, DecidableEq

/-- `gst::ResourceError` values used in `gst_error_msg!`. -/
inductive ResourceError where
  | NotFound
  deriving Repr, DecidableEq

/-- The fields of a `gst::Buffer` this element writes.  A fresh buffer from
`gst::Buffer::with_size` has pts, duration and offset unset
(`CLOCK_TIME_NONE` / `BUFFER_OFFSET_NONE`), modelled as `none`. -/
structure Buffer where
  size : Nat
  pts : Option Nat
  duration : Option Nat
  «offset» : Option Nat
  deriving Repr, DecidableEq

/-- `gst::Buffer::with_size(n)`: an n-byte buffer with no metadata set. -/
def Buffer.with_size (n : Nat) : Buffer :=
  { size := n, pts := none, duration := none, «offset» := none }

instance {ε α : Type} [DecidableEq ε] [DecidableEq α] :
    DecidableEq (Except ε α) := fun a b =>
  match a, b with
  | Except.ok x, Except.ok y =>
    if h : x = y then isTrue (by rw [h]) else isFalse (by simp [h])
  | Except.error x, Except.error y =>
    if h : x = y then isTrue (by rw [h]) else isFalse (by simp [h])
  | Except.ok _, Except.error _ => isFalse (by simp)
  | Except.error _, Except.ok _ => isFalse (by simp)

/-- `gst::SECOND` in nanoseconds. -/
def SECOND : Nat := 1000000000

/-- `gst::ClockTime::mul_div_floor(v, n, d)`: `v * n / d` with floor
division, `None` on division by zero or u64 overflow. -/
def mul_div_floor (v n d : Nat) : Option Nat :=
  if d = 0 then none
  else if v * n / d < 2 ^ 64 then some (v * n / d) else none

/-!
IEEE binary64 model.  The duration in `create` is computed in Rust as
`(((f64::from(1000) / f64::from(48000)) * 1_000_000_000.0) as u64)`.
Positive binary64 values are dyadic rationals `m * 2^e` with a 53-bit
mantissa `m`; each arithmetic operation rounds the exact rational result
to the nearest such value.  For the concrete operands arising here no
rounding step hits a tie (so the round-half-up `roundDiv` below agrees
with IEEE round-half-to-even) and no overflow/subnormal range is reached,
so this dyadic model is the exact IEEE semantics of the source expression.
-/

/-- A positive binary64 value `m * 2^e` (`m` the 53-bit mantissa). -/
structure F64 where
  m : Nat
  e : Int
  deriving Repr, DecidableEq

/-- `⌊log2 (n/d)⌋` for positive `n`, `d`, by fuel-bounded scaling: doubling
the smaller side shifts the quotient by one binade per step. -/
def ilog2Frac (fuel : Nat) (n d : Nat) : Int :=
  match fuel with
  | 0 => 0
  | fuel + 1 =>
    if n < d then ilog2Frac fuel (2 * n) d - 1
    else if 2 * d ≤ n then ilog2Frac fuel n (2 * d) + 1
    else 0

/-- `round (n / d)` to the nearest integer, halves up (no halves arise in
the computations below). -/
def roundDiv (n d : Nat) : Nat := (2 * n + d) / (2 * d)

/-- Round the positive fraction `n / d` to the nearest binary64 value:
scale into the binade `[2^52, 2^53)` and round the mantissa. -/
def roundF64 (n d : Nat) : F64 :=
  if n = 0 ∨ d = 0 then ⟨0, 0⟩
  else
    let e : Int := ilog2Frac 4200 n d - 52
    if 0 ≤ e then ⟨roundDiv n (d * 2 ^ e.toNat), e⟩
    else ⟨roundDiv (n * 2 ^ (-e).toNat) d, e⟩

/-- `f64::from` on a small integer (exactly representable, so rounding is
the identity on the value). -/
def F64.ofNat (n : Nat) : F64 := roundF64 n 1

/-- binary64 division: round the exact quotient
`(x.m * 2^x.e) / (y.m * 2^y.e)`. -/
def f64_div (x y : F64) : F64 :=
  if 0 ≤ x.e - y.e then roundF64 (x.m * 2 ^ (x.e - y.e).toNat) y.m
  else roundF64 x.m (y.m * 2 ^ (y.e - x.e).toNat)

/-- binary64 multiplication: round the exact product
`(x.m * y.m) * 2^(x.e + y.e)`. -/
def f64_mul (x y : F64) : F64 :=
  if 0 ≤ x.e + y.e then roundF64 (x.m * y.m * 2 ^ (x.e + y.e).toNat) 1
  else roundF64 (x.m * y.m) (2 ^ (-(x.e + y.e)).toNat)

/-- Rust `as` cast from `f64` to `u64`: truncate toward zero, saturating
at `u64::MAX`. -/
def f64_as_u64 (x : F64) : Nat :=
  if 0 ≤ x.e then min (x.m * 2 ^ x.e.toNat) (2 ^ 64 - 1)
  else min (x.m / 2 ^ (-x.e).toNat) (2 ^ 64 - 1)

/-- The duration written on every buffer `create` produces:
`(((f64::from(1000) / f64::from(48000)) * 1_000_000_000.0) as u64)`
nanoseconds. -/
def create_duration : Nat :=
  f64_as_u64 (f64_mul (f64_div (F64.ofNat 1000) (F64.ofNat 48000))
    (F64.ofNat 1000000000))

/-! The element callbacks. -/

/-- The `gst::StateChange` transitions `change_state` can receive. -/
inductive StateChange where
  | NullToReady
  | ReadyToPaused
  | PausedToPlaying
  | PlayingToPaused
  | PausedToReady
  | ReadyToNull
  deriving Repr, DecidableEq

/-- `ElementImpl::change_state`: on `PausedToPlaying`, look up the receiver
(`unwrap`, so `none` = panic), capture one audio frame, update the entry's
`initial_timestamp` to the frame's vendor timestamp (cast i64 → u64) when
`initial_timestamp <= timestamp || initial_timestamp == 0`, and free the
frame.  Any other transition touches nothing.  Returns the updated
registry and the trace of SDK frame calls (delegation to
`parent_change_state` is the base class's bookkeeping, no element state). -/
def change_state (transition : StateChange) (settings : Settings)
    (receivers : Receivers) (frame : AudioFrame) :
    Option (Receivers × List Event) :=
  if transition = StateChange.PausedToPlaying then
    match receivers settings.id_receiver with
    | none => none
    | some receiver =>
      let ts := i64_as_u64 frame.timestamp
      let receiver :=
        if receiver.initial_timestamp ≤ ts ∨ receiver.initial_timestamp = 0
        then { receiver with initial_timestamp := ts }
        else receiver
      some (Function.update receivers settings.id_receiver (some receiver),
        [Event.capture, Event.free])
  else some (receivers, [])

/-- `BaseSrcImpl::set_caps`: build an `AudioInfo` from the caps (the caps →
info conversion is the framework's; its outcome is the argument) and store
it in `State`; error without touching `State` when the conversion fails. -/
def set_caps (state : State) (parsed : Option AudioInfo) :
    Except Unit State :=
  match parsed with
  | none => Except.error ()
  | some info => Except.ok { state with info := some info }

/-- `BaseSrcImpl::start`: reset `State` to default, store the id returned
by `connect_ndi` (an external function; its return value is the argument
`connect_result`) into `settings.id_receiver`, then fail with a
`gst::ResourceError::NotFound` error message exactly when that id is 0
(the source discriminates with `match` on the literal 0, embedded here as
the equality test). -/
def start (settings : Settings) (connect_result : Int) :
    Except ResourceError Unit × Settings × State :=
  let state := State.default
  let settings := { settings with id_receiver := connect_result }
  if settings.id_receiver = 0 then
    (Except.error ResourceError.NotFound, settings, state)
  else (Except.ok (), settings, state)

/-- `BaseSrcImpl::stop`: reset `State` to default, call the external
`stop_ndi` with the current `settings.id_receiver` (the id passed is the
third component; `settings` itself is only read), and return `Ok(())`. -/
def stop (settings : Settings) : Except Unit Unit × Settings × State × Int :=
  let state := State.default
  (Except.ok (), settings, state, settings.id_receiver)

/-- The answer a latency query carries after `q.set(true, latency,
CLOCK_TIME_NONE)`: live flag, min latency, max latency. -/
structure LatencyAnswer where
  live : Bool
  min_latency : Nat
  max_latency : Option Nat
  deriving Repr, DecidableEq

/-- The latency branch of `BaseSrcImpl::query`: when `state.info` is set,
unwrap `settings.latency` (`none` = panic) and answer the query, returning
`true`; when `state.info` is empty, return `false` without answering. -/
def query_latency (settings : Settings) (state : State) :
    Option (Bool × Option LatencyAnswer) :=
  match state.info with
  | some _ =>
    match settings.latency with
    | none => none
    | some latency =>
      some (true,
        some { live := true, min_latency := latency, max_latency := none })
  | none => some (false, none)

/-- One caps field: an unresolved integer range or a fixed value. -/
inductive IntField where
  | range (lo hi : Int)
  | value (v : Int)
  deriving Repr, DecidableEq

/-- `Structure::fixate_field_nearest_int`: clamp the target into the range
(a fixed field stays fixed). -/
def fixate_field_nearest_int (f : IntField) (target : Int) : IntField :=
  match f with
  | IntField.value v => IntField.value v
  | IntField.range lo hi => IntField.value (max lo (min hi target))

/-- The caps fields `fixate` manipulates. -/
structure CapsS where
  rate : IntField
  channels : IntField
  layout : String
  deriving Repr, DecidableEq

/-- `BaseSrcImpl::fixate`: look up the receiver (`unwrap`, `none` = panic),
capture one audio frame (only logged), store
`SECOND.mul_div_floor(1000, 48000)` into `settings.latency`, fixate rate
near 48000 and channels near 1, post a latency message, free the frame.
Returns the updated settings, the fixated caps, the trace of SDK frame
calls, and whether the latency message was posted. -/
def fixate (settings : Settings) (receivers : Receivers)
    (_frame : AudioFrame) (caps : CapsS) :
    Option (Settings × CapsS × List Event × Bool) :=
  match receivers settings.id_receiver with
  | none => none
  | some _ =>
    let no_samples : Nat := 1000
    let audio_rate : Nat := 48000
    let settings :=
      { settings with latency := mul_div_floor SECOND no_samples audio_rate }
    let caps :=
      { caps with
        rate := fixate_field_nearest_int caps.rate 48000
        channels := fixate_field_nearest_int caps.channels 1
        layout := "interleaved" }
    some (settings, caps, [Event.capture, Event.free], true)

/-- `BaseSrcImpl::create`: when `state.info` is `None`, post a
`gst::CoreError::Negotiation` element error and return
`Err(FlowError::NotNegotiated)` before any capture.  Otherwise look up the
receiver (`unwrap`, `none` = panic), capture one audio frame, allocate a
`1000 * 1 * 2`-byte buffer, set only its duration (the pts and offset
assignments in the source are commented out, as is the advancement of
`timestamp_data.offset`), convert the frame's samples into the mapped
buffer (`NDIlib_util_audio_to_interleaved_16s_v2`, which does not change
the buffer's size or metadata), free the frame, and return the buffer.
Result components: flow result, updated `TimestampData`, trace of SDK
frame calls, posted element errors. -/
def create (settings : Settings) (state : State) (td : TimestampData)
    (receivers : Receivers) (_frame : AudioFrame) :
    Option (Except FlowError Buffer × TimestampData × List Event ×
      List CoreError) :=
  match state.info with
  | none =>
    some (Except.error FlowError.NotNegotiated, td, [],
      [CoreError.Negotiation])
  | some _info =>
    match receivers settings.id_receiver with
    | none => none
    | some _recv =>
      let buff_size := 1000 * 1 * 2
      let buffer := Buffer.with_size buff_size
      let buffer := { buffer with duration := some create_duration }
      some (Except.ok buffer, td, [Event.capture, Event.free], [])

/-! The glib property interface. -/

/-- The three installed properties, in `PROPERTIES` order. -/
inductive Property where
  | stream_name
  | ip
  | loss_threshold
  deriving Repr, DecidableEq

/-- A `glib::Value` carrying one of the property types. -/
inductive GValue where
  | str (s : String)
  | uint (n : Nat)
  deriving Repr, DecidableEq

/-- `ObjectImpl::set_property`: write the matching `Settings` field;
`value.get().unwrap()` on a value of the wrong type panics (`none`). -/
def set_property (settings : Settings) (p : Property) (v : GValue) :
    Option Settings :=
  match p, v with
  | Property.stream_name, GValue.str s =>
    some { settings with stream_name := s }
  | Property.ip, GValue.str s => some { settings with ip := s }
  | Property.loss_threshold, GValue.uint n =>
    some { settings with loss_threshold := n }
  | _, _ => none

/-- `ObjectImpl::get_property`: read the matching `Settings` field. -/
def get_property (settings : Settings) (p : Property) : GValue :=
  match p with
  | Property.stream_name => GValue.str settings.stream_name
  | Property.ip => GValue.str settings.ip
  | Property.loss_threshold => GValue.uint settings.loss_threshold

/-! Concrete instances used to evaluate the operations. -/

/-- A negotiated 48 kHz mono format. -/
def info48k : AudioInfo := { rate := 48000, channels := 1 }

/-- Settings of an element connected as receiver id 1. -/
def settings1 : Settings := { Settings.default with id_receiver := 1 }

/-- Settings of an element connected as receiver id 7. -/
def settings7 : Settings := { Settings.default with id_receiver := 7 }

/-- A registry holding one receiver, id 1, with unset baseline. -/
def receivers1 : Receivers :=
  fun i => if i = 1 then some { initial_timestamp := 0 } else none

/-- A registry holding one receiver, id 1, with stored baseline 5. -/
def receivers5 : Receivers :=
  fun i => if i = 1 then some { initial_timestamp := 5 } else none

/-- The buffer `create` produces on every successful pull. -/
def produced_buffer : Buffer :=
  { size := 2000, pts := none, duration := some create_duration,
    «offset» := none }

/-- The duration `create` computes through binary64 arithmetic equals the
floor-division value `1000 * SECOND / 48000` = 20833333 ns. -/
theorem create_duration_eq : create_duration = 1000 * SECOND / 48000 := by
  decide

/-- C1: whenever `create` is called while `State.info` is empty, it
produces no buffer and fails with `FlowError::NotNegotiated`; the failure
is fatal to the pull, not retryable: a `gst::CoreError::Negotiation`
element error is posted, and no capture is even attempted (empty trace). -/
theorem create_without_caps_fails_not_negotiated (settings : Settings)
    (td : TimestampData) (receivers : Receivers) (frame : AudioFrame) :
    create settings { info := none } td receivers frame =
      some (Except.error FlowError.NotNegotiated, td, [],
        [CoreError.Negotiation]) := rfl

/-- C2: `start` stores the id returned by `connect_ndi` in
`Settings.id_receiver`, and returns a `ResourceError::NotFound` error
(failing the transition) if and only if that id is the sentinel 0;
otherwise it succeeds. -/
theorem start_stores_id_and_fails_iff_zero (settings : Settings)
    (connect_result : Int) :
    (start settings connect_result).2.1.id_receiver = connect_result ∧
    ((start settings connect_result).1 =
        Except.error ResourceError.NotFound ↔ connect_result = 0) ∧
    ((start settings connect_result).1 = Except.ok () ↔
      connect_result ≠ 0) := by
  by_cases h : connect_result = 0 <;> simp [start, h]

/-- C6 counterexample: `stop` on settings holding receiver id 7 leaves
`Settings.id_receiver` at 7, not the sentinel 0 the claim requires it to
be reset to. -/
theorem stop_id_receiver_counterexample :
    (stop settings7).2.1.id_receiver = 7 ∧ (7 : Int) ≠ 0 := by decide

/-- C6 amended: `stop` resets `State` to default (empty negotiated
format), passes the current `Settings.id_receiver` to `stop_ndi` (the
disconnect call), always returns success, and leaves `Settings` — in
particular `id_receiver` — unchanged. -/
theorem stop_resets_state_keeps_settings (settings : Settings) :
    stop settings =
      (Except.ok (), settings, State.default, settings.id_receiver) := rfl

/-- C3 counterexample: a successful pull (negotiated 48 kHz mono, receiver
id 1 present) produces a buffer whose pts is unset (`CLOCK_TIME_NONE`) —
in particular not `sample_offset * SECOND / sample_rate = 0` — so
consecutive buffers carry no presentation timestamps at all, refuting
strict increase and the pts formula: the pts-assignment and
offset-advancing lines of `create` are commented out in the source. -/
theorem create_pts_counterexample :
    create settings1 { info := some info48k } { «offset» := 0 } receivers1
        { timestamp := 6000000 } =
      some (Except.ok produced_buffer, { «offset» := 0 },
        [Event.capture, Event.free], []) ∧
    produced_buffer.pts ≠ some (0 * SECOND / 48000) ∧
    produced_buffer.pts = none := by decide

/-- C3 amended: every buffer successfully produced by `create` carries no
presentation timestamp (pts unset) and no offset; its duration is the
constant `1000 * SECOND / 48000` ns, independent of the sample-offset
counter and of the vendor-reported capture time. -/
theorem create_buffer_has_no_pts (settings : Settings) (state : State)
    (td : TimestampData) (receivers : Receivers) (frame : AudioFrame)
    (b : Buffer) (rest : TimestampData × List Event × List CoreError)
    (h : create settings state td receivers frame =
      some (Except.ok b, rest)) :
    b.pts = none ∧ b.«offset» = none ∧
    b.duration = some (1000 * SECOND / 48000) := by
  unfold create at h
  rcases hinfo : state.info with _ | info <;> rw [hinfo] at h
  · simp at h
  · rcases hr : receivers settings.id_receiver with _ | recv <;>
      rw [hr] at h
    · simp at h
    · simp only [Option.some.injEq, Prod.mk.injEq, Except.ok.injEq] at h
      rcases h with ⟨hb, -⟩
      subst hb
      exact ⟨rfl, rfl, by rw [create_duration_eq]⟩

/-- Witness for C3 amended: the buffer of a concrete successful pull has
unset pts, unset offset, and duration 20833333 ns. -/
theorem create_buffer_has_no_pts_witness :
    produced_buffer.pts = none ∧ produced_buffer.«offset» = none ∧
    produced_buffer.duration = some (1000 * SECOND / 48000) :=
  create_buffer_has_no_pts settings1 { info := some info48k }
    { «offset» := 0 } receivers1 { timestamp := 6000000 } produced_buffer
    ({ «offset» := 0 }, [Event.capture, Event.free], []) (by decide)

/-- C4 counterexample: a successful pull of 1000 samples from
sample-offset 0 leaves `TimestampData.offset` at 0 instead of advancing
it to 1000: the advancement lines of `create` are commented out in the
source. -/
theorem offset_not_advanced_counterexample :
    (create settings1 { info := some info48k } { «offset» := 0 } receivers1
        { timestamp := 6000000 }).map (fun r => r.2.1) =
      some { «offset» := 0 } ∧
    ({ «offset» := 0 } : TimestampData) ≠ { «offset» := 0 + 1000 } := by
  decide

/-- C4 amended: `TimestampData.offset` is zero when the element is
constructed and no call to `create` ever changes it (in particular it
never decreases, but it is not advanced by produced buffers). -/
theorem offset_zero_and_never_changed :
    NdiAudioSrcData.new.timestamp_data.«offset» = 0 ∧
    ∀ (settings : Settings) (state : State) (td : TimestampData)
      (receivers : Receivers) (frame : AudioFrame)
      (res : Except FlowError Buffer × TimestampData × List Event ×
        List CoreError),
      create settings state td receivers frame = some res →
      res.2.1 = td := by
  refine ⟨rfl, ?_⟩
  intro settings state td receivers frame res h
  unfold create at h
  rcases hinfo : state.info with _ | info <;> rw [hinfo] at h
  · simp only [Option.some.injEq] at h
    rw [← h]
  · rcases hr : receivers settings.id_receiver with _ | recv <;>
      rw [hr] at h
    · simp at h
    · simp only [Option.some.injEq] at h
      rw [← h]

/-- Witness for C4 amended: on a concrete successful pull from offset 0,
the returned `TimestampData` still holds offset 0. -/
theorem offset_zero_and_never_changed_witness :
    NdiAudioSrcData.new.timestamp_data.«offset» = 0 ∧
    ((Except.ok produced_buffer : Except FlowError Buffer),
        ({ «offset» := 0 } : TimestampData),
        [Event.capture, Event.free], ([] : List CoreError)).2.1 =
      { «offset» := 0 } :=
  ⟨offset_zero_and_never_changed.1,
    offset_zero_and_never_changed.2 settings1 { info := some info48k }
      { «offset» := 0 } receivers1 { timestamp := 6000000 }
      (Except.ok produced_buffer, { «offset» := 0 },
        [Event.capture, Event.free], []) (by decide)⟩

/-- C5 counterexample: with stored baseline 5 (set, non-zero) and a new
vendor timestamp 10 — later than the baseline, so the claim requires the
baseline to stay 5 — `change_state` on `PausedToPlaying` overwrites the
baseline with 10: the source updates when `stored <= new || stored == 0`,
not when `new <= stored || stored == 0`. -/
theorem initial_timestamp_counterexample :
    (change_state StateChange.PausedToPlaying settings1 receivers5
        { timestamp := 10 }).map (fun r => r.1 1) =
      some (some { initial_timestamp := 10 }) ∧
    ¬((10 : Nat) ≤ 5 ∨ (5 : Nat) = 0) ∧ (10 : Nat) ≠ 5 := by decide

/-- C5 amended: on `PausedToPlaying`, `change_state` captures one frame
and stores its vendor timestamp (cast i64 → u64) as the receiver entry's
`initial_timestamp` exactly when the stored baseline is unset (0) or the
new timestamp is **not earlier** than the stored baseline
(`stored <= new`); otherwise the stored baseline is left unchanged. -/
theorem change_state_stores_initial_timestamp (settings : Settings)
    (receivers : Receivers) (frame : AudioFrame) (r : Receiver)
    (h : receivers settings.id_receiver = some r) :
    change_state StateChange.PausedToPlaying settings receivers frame =
      some (Function.update receivers settings.id_receiver
        (some (if r.initial_timestamp ≤ i64_as_u64 frame.timestamp ∨
            r.initial_timestamp = 0
          then { r with initial_timestamp := i64_as_u64 frame.timestamp }
          else r)),
        [Event.capture, Event.free]) := by
  unfold change_state
  rw [if_pos rfl, h]

/-- Witness for C5 amended: with baseline 5 and vendor timestamp 10 the
updated registry holds baseline 10 for receiver id 1. -/
theorem change_state_stores_initial_timestamp_witness :
    change_state StateChange.PausedToPlaying settings1 receivers5
        { timestamp := 10 } =
      some (Function.update receivers5 settings1.id_receiver
        (some (if (5 : Nat) ≤ i64_as_u64 10 ∨ (5 : Nat) = 0
          then { initial_timestamp := i64_as_u64 10 }
          else { initial_timestamp := 5 })),
        [Event.capture, Event.free]) :=
  change_state_stores_initial_timestamp settings1 receivers5
    { timestamp := 10 } { initial_timestamp := 5 } (by decide)

/-- C7: every successful pull (the source hardcodes 1000 samples at
48000 Hz, 16-bit mono) produces a buffer of exactly `1000 * 1 * 2 = 2000`
bytes whose duration is `floor(1000 * 1e9 / 48000)` nanoseconds — the
binary64 route the source takes computes exactly that floor value. -/
theorem create_pull_size_and_duration (settings : Settings)
    (state : State) (td : TimestampData) (receivers : Receivers)
    (frame : AudioFrame) (info : AudioInfo) (r : Receiver)
    (hinfo : state.info = some info)
    (hr : receivers settings.id_receiver = some r) :
    create settings state td receivers frame =
      some (Except.ok { size := 2000, pts := none, duration := some (1000 * SECOND / 48000), «offset» := none },
        td, [Event.capture, Event.free], []) := by
  unfold create
  rw [hinfo, hr]
  simp [Buffer.with_size, create_duration_eq]

/-- Witness for C7: a concrete successful pull yields the 2000-byte
buffer with duration 20833333 ns. -/
theorem create_pull_size_and_duration_witness :
    create settings1 { info := some info48k } { «offset» := 42 }
        receivers1 { timestamp := 0 } =
      some (Except.ok { size := 2000, pts := none, duration := some (1000 * SECOND / 48000), «offset» := none },
        { «offset» := 42 }, [Event.capture, Event.free], []) :=
  create_pull_size_and_duration settings1 { info := some info48k }
    { «offset» := 42 } receivers1 { timestamp := 0 } info48k
    { initial_timestamp := 0 } rfl (by decide)

/-- C8: on every execution path of every frame-capturing operation
(`change_state`, `fixate`, `create`) that returns, the trace of vendor
SDK frame calls is either empty (no capture was performed: a transition
other than `PausedToPlaying`, or `create`'s negotiation-error exit, which
returns before capturing) or exactly one capture followed by exactly one
free — so every captured frame is released exactly once before the
operation returns. -/
theorem capture_free_paired :
    (∀ (t : StateChange) (settings : Settings) (receivers : Receivers)
      (frame : AudioFrame) (res : Receivers × List Event),
      change_state t settings receivers frame = some res →
      res.2 = [] ∨ res.2 = [Event.capture, Event.free]) ∧
    (∀ (settings : Settings) (receivers : Receivers) (frame : AudioFrame)
      (caps : CapsS) (res : Settings × CapsS × List Event × Bool),
      fixate settings receivers frame caps = some res →
      res.2.2.1 = [Event.capture, Event.free]) ∧
    (∀ (settings : Settings) (state : State) (td : TimestampData)
      (receivers : Receivers) (frame : AudioFrame)
      (res : Except FlowError Buffer × TimestampData × List Event ×
        List CoreError),
      create settings state td receivers frame = some res →
      res.2.2.1 = [] ∨ res.2.2.1 = [Event.capture, Event.free]) := by
  refine ⟨?_, ?_, ?_⟩
  · intro t settings receivers frame res h
    unfold change_state at h
    by_cases ht : t = StateChange.PausedToPlaying
    · rw [if_pos ht] at h
      rcases hr : receivers settings.id_receiver with _ | r <;>
        rw [hr] at h
      · simp at h
      · simp only [Option.some.injEq] at h
        right
        rw [← h]
    · rw [if_neg ht] at h
      simp only [Option.some.injEq] at h
      left
      rw [← h]
  · intro settings receivers frame caps res h
    unfold fixate at h
    rcases hr : receivers settings.id_receiver with _ | r <;> rw [hr] at h
    · simp at h
    · simp only [Option.some.injEq] at h
      rw [← h]
  · intro settings state td receivers frame res h
    unfold create at h
    rcases hinfo : state.info with _ | info <;> rw [hinfo] at h
    · simp only [Option.some.injEq] at h
      left
      rw [← h]
    · rcases hr : receivers settings.id_receiver with _ | r <;>
        rw [hr] at h
      · simp at h
      · simp only [Option.some.injEq] at h
        right
        rw [← h]

/-- Witness for C8: concrete runs of the three operations, each with its
capture paired with one free (or no capture at all). -/
theorem capture_free_paired_witness :
    ((Function.update receivers5 settings1.id_receiver
          (some { initial_timestamp := 10 }),
        [Event.capture, Event.free]).2 = [] ∨
      (Function.update receivers5 settings1.id_receiver
          (some { initial_timestamp := 10 }),
        [Event.capture, Event.free]).2 = [Event.capture, Event.free]) ∧
    (({ settings1 with latency := some 20833333 },
        ({ rate := IntField.value 48000, channels := IntField.value 1, layout := "interleaved" } : CapsS),
        [Event.capture, Event.free], true).2.2.1 =
      [Event.capture, Event.free]) ∧
    (((Except.ok produced_buffer : Except FlowError Buffer),
        ({ «offset» := 0 } : TimestampData), [Event.capture, Event.free],
        ([] : List CoreError)).2.2.1 = [] ∨
      ((Except.ok produced_buffer : Except FlowError Buffer),
        ({ «offset» := 0 } : TimestampData), [Event.capture, Event.free],
        ([] : List CoreError)).2.2.1 = [Event.capture, Event.free]) :=
  ⟨capture_free_paired.1 StateChange.PausedToPlaying settings1 receivers5
      { timestamp := 10 }
      (Function.update receivers5 settings1.id_receiver
        (some { initial_timestamp := 10 }), [Event.capture, Event.free])
      rfl,
    capture_free_paired.2.1 settings1 receivers1 { timestamp := 0 }
      { rate := IntField.range 1 2147483647, channels := IntField.range 1 2147483647, layout := "interleaved" }
      ({ settings1 with latency := some 20833333 },
        { rate := IntField.value 48000, channels := IntField.value 1, layout := "interleaved" },
        [Event.capture, Event.free], true) (by decide),
    capture_free_paired.2.2 settings1 { info := some info48k }
      { «offset» := 0 } receivers1 { timestamp := 0 }
      (Except.ok produced_buffer, { «offset» := 0 },
        [Event.capture, Event.free], []) (by decide)⟩

/-- C9: for each of the three properties, `get_property` after
`set_property` of value v returns exactly v, and setting one property
leaves every other `Settings` field unchanged (the record-update form of
the result makes this explicit; the reads of the two other properties are
also stated). -/
theorem property_set_get_roundtrip (settings : Settings) :
    (∀ s, set_property settings Property.stream_name (GValue.str s) =
        some { settings with stream_name := s } ∧
      get_property { settings with stream_name := s }
        Property.stream_name = GValue.str s ∧
      get_property { settings with stream_name := s } Property.ip =
        get_property settings Property.ip ∧
      get_property { settings with stream_name := s }
        Property.loss_threshold =
        get_property settings Property.loss_threshold) ∧
    (∀ s, set_property settings Property.ip (GValue.str s) =
        some { settings with ip := s } ∧
      get_property { settings with ip := s } Property.ip = GValue.str s ∧
      get_property { settings with ip := s } Property.stream_name =
        get_property settings Property.stream_name ∧
      get_property { settings with ip := s } Property.loss_threshold =
        get_property settings Property.loss_threshold) ∧
    (∀ n, set_property settings Property.loss_threshold (GValue.uint n) =
        some { settings with loss_threshold := n } ∧
      get_property { settings with loss_threshold := n }
        Property.loss_threshold = GValue.uint n ∧
      get_property { settings with loss_threshold := n }
        Property.stream_name =
        get_property settings Property.stream_name ∧
      get_property { settings with loss_threshold := n } Property.ip =
        get_property settings Property.ip) :=
  ⟨fun _ => ⟨rfl, rfl, rfl, rfl⟩, fun _ => ⟨rfl, rfl, rfl, rfl⟩,
    fun _ => ⟨rfl, rfl, rfl, rfl⟩⟩

/-- C10: the latency query is answered (`true` with the stored latency,
live flag set, no max) only when `State.info` is non-empty; with empty
`State.info` the handler returns `false` without answering; and the
answering branch unconditionally unwraps `Settings.latency`, so it
panics (`none`) whenever no latency has been stored (it is well-defined
only once `fixate` has stored one). -/
theorem query_latency_spec (settings : Settings) (state : State) :
    (state.info = none → query_latency settings state =
      some (false, none)) ∧
    (∀ info, state.info = some info → settings.latency = none →
      query_latency settings state = none) ∧
    (∀ info l, state.info = some info → settings.latency = some l →
      query_latency settings state =
        some (true, some { live := true, min_latency := l, max_latency := none })) ∧
    (∀ ans, query_latency settings state = some (true, ans) →
      state.info ≠ none) := by
  refine ⟨?_, ?_, ?_, ?_⟩
  · intro h
    unfold query_latency
    rw [h]
  · intro info hi hl
    unfold query_latency
    rw [hi, hl]
  · intro info l hi hl
    unfold query_latency
    rw [hi, hl]
  · intro ans h hnone
    unfold query_latency at h
    rw [hnone] at h
    simp at h

/-- Witness for C10: with a negotiated format and the latency `fixate`
stores, the query is answered with that latency. -/
theorem query_latency_spec_witness :
    query_latency { Settings.default with latency := some 20833333 }
        { info := some info48k } =
      some (true, some { live := true, min_latency := 20833333, max_latency := none }) :=
  (query_latency_spec { Settings.default with latency := some 20833333 }
    { info := some info48k }).2.2.1 info48k 20833333 rfl rfl

end GstNdi
